import Mathlib

/-!
Verification development for the `examples/cli/main.go` command-line tool of
parrotmac/proxmox-api-go.

The tool is shallowly embedded: the dynamically typed JSON-like values the
Proxmox client returns become the inductive `DynVal`; the collaborating
client (`proxmox.Client`) becomes the record of oracles `ClientEnv`; the
observable behaviour of a run (stdout lines, diagnostic-log lines, network
calls, and the way the process ends) becomes a `List Event` paired with an
`Except Term Unit` (`.ok ()` models `main` returning normally, which makes
the process exit with status 0).
-/

set_option autoImplicit false

/-- A dynamically typed value, modelling Go `interface` values decoded from
JSON: strings, numbers, booleans, arrays (`[]interface` slices) and
string-keyed objects (`map[string]interface` maps, modelled as association
lists in iteration order). -/
inductive DynVal where
  | str : String → DynVal
  | num : Int → DynVal
  | boolean : Bool → DynVal
  | arr : List DynVal → DynVal
  | obj : List (String × DynVal) → DynVal

mutual

/-- Default textual form of a `DynVal`, modelling Go `fmt` `%v`-style
printing of a decoded value. -/
def DynVal.render : DynVal → String
  | .str s => s
  | .num n => toString n
  | .boolean b => if b then "true" else "false"
  | .arr l => "[" ++ DynVal.renderSeq l ++ "]"
  | .obj l => "map[" ++ DynVal.renderPairs l ++ "]"

def DynVal.renderSeq : List DynVal → String
  | [] => ""
  | [v] => DynVal.render v
  | v :: rest => DynVal.render v ++ " " ++ DynVal.renderSeq rest

def DynVal.renderPairs : List (String × DynVal) → String
  | [] => ""
  | [(k, v)] => k ++ ":" ++ DynVal.render v
  | (k, v) :: rest => k ++ ":" ++ DynVal.render v ++ " " ++ DynVal.renderPairs rest

end

/-- Go map indexing `m[k]`: the value stored at `k`, or `none` (Go `nil`)
when the key is absent. -/
def lookup (m : List (String × DynVal)) (k : String) : Option DynVal :=
  match m with
  | [] => none
  | (k', v) :: rest => if k' = k then some v else lookup rest k

/-- Ways a run can end other than `main` returning normally. -/
inductive Term where
  /-- `os.Exit code`. -/
  | exited : Nat → Term
  /-- `log.Fatal` family: the message is written to the diagnostic log and
  the process exits with status 1. -/
  | fatal : String → Term
  /-- A failed unchecked type assertion: Go run-time panic (exit status 2). -/
  | panicked : String → Term
deriving DecidableEq, Repr

/-- Process exit status of a finished run. -/
def exitCode : Except Term Unit → Nat
  | .ok _ => 0
  | .error (.exited n) => n
  | .error (.fatal _) => 1
  | .error (.panicked _) => 2

/-- Panic message of the checked-at-run-time cast `x.(string)` in its
single-valued (unchecked) form. -/
def panicNotString : String := "interface conversion: value is not a string"

/-- Panic message of the unchecked cast to a slice. -/
def panicNotArr : String := "interface conversion: value is not a slice"

/-- Panic message of the unchecked cast to a string-keyed map. -/
def panicNotObj : String := "interface conversion: value is not a map"

/-- The two-valued checked assertion `s, _ := m[k].(string)`: yields `""`
when the key is absent or the stored value is not a string. -/
def lookupString (m : List (String × DynVal)) (k : String) : String :=
  match lookup m k with
  | some (.str s) => s
  | _ => ""

/-- The single-valued unchecked assertion `m[k].(string)`: panics when the
key is absent or the stored value is not a string. -/
def lookupStringE (m : List (String × DynVal)) (k : String) : Except Term String :=
  match lookup m k with
  | some (.str s) => .ok s
  | _ => .error (.panicked panicNotString)

/-- An opaque VM reference handle (`proxmox.VmRef`), identified here by the
VM id; the tool never inspects it, only passes it back to the client. -/
structure VmRef where
  vmId : Nat
deriving DecidableEq, Repr

/-- One network call issued against the Proxmox client, with its
arguments. -/
inductive ApiCall where
  | login : String → String → String → ApiCall
  | getNodeList : ApiCall
  | listStoragesOn : String → ApiCall
  | getVmList : ApiCall
  | getVmRefByName : String → ApiCall
  | getVmConfig : VmRef → ApiCall
  | getVmAgentNetworkInterfaces : VmRef → ApiCall
deriving DecidableEq, Repr

/-- One observable event of a run, in program order. -/
inductive Event where
  /-- A line printed to standard output (`fmt.Print` family). -/
  | out : String → Event
  /-- A line written to the diagnostic log (`log.Println` / `log.Fatal`). -/
  | logLine : String → Event
  /-- A network call issued against the client. -/
  | call : ApiCall → Event
deriving DecidableEq, Repr

/-- The network calls of an event trace, in order. -/
def callEvents (evs : List Event) : List ApiCall :=
  evs.filterMap fun e =>
    match e with
    | .call c => some c
    | _ => none

/-- The diagnostic-log lines of an event trace, in order. -/
def logTexts (evs : List Event) : List String :=
  evs.filterMap fun e =>
    match e with
    | .logLine s => some s
    | _ => none

/-- The Proxmox client as an oracle: the outcome of each collaborator call
the tool can make.  `newClientResult` stands for `proxmox.NewClient` (pure
construction, no network traffic). -/
structure ClientEnv where
  newClientResult : Except String Unit
  login : String → String → String → Except String Unit
  getNodeList : Except String (List (String × DynVal))
  listStorages : String → Except String (List DynVal)
  getVmList : Except String (List (String × DynVal))
  getVmRefByName : String → Except String VmRef
  getVmConfig : VmRef → Except String (List (String × DynVal))
  getVmAgentNetworkInterfaces : VmRef → Except String (List DynVal)

/-- Parsed command-line flags plus the positional arguments
(`flag.Arg 0`, `flag.Arg 1`, ...). -/
structure Args where
  username : String
  password : String
  otp : String
  serverURL : String
  skipTLSVerify : Bool
  debug : Bool
  realm : String
  positional : List String

/-- `flag.Arg i`: the i-th positional argument, `""` when out of range. -/
def argN (args : Args) (i : Nat) : String := args.positional.getD i ""

/-- A step of computation: the events it emits and either normal
completion or early termination. -/
abbrev Step := List Event × Except Term Unit

/-- Prefix a step with events already emitted. -/
def withEvents (pre : List Event) (r : Step) : Step := (pre ++ r.1, r.2)

/-- `log.Fatal*`: the message goes to the diagnostic log and the process
exits with status 1. -/
def fatalStep (msg : String) : Step := ([.logLine msg], .error (.fatal msg))

/-- Run one step per list element, stopping at the first early
termination (modelling a Go `for` loop whose body can call `log.Fatal` or
panic). -/
def seqSteps {α : Type} (step : α → Step) : List α → Step
  | [] => ([], .ok ())
  | x :: xs =>
    match step x with
    | (evs, .error t) => (evs, .error t)
    | (evs, .ok ()) =>
      let r := seqSteps step xs
      (evs ++ r.1, r.2)

/-- `strings.Contains s "@"`. -/
def containsAtSign (s : String) : Bool := s.toList.contains '@'

/-- Lines 90-93 of `main`: qualify the username with the realm unless it
already carries an `@`. -/
def normalizedUsername (username realm : String) : String :=
  if containsAtSign username then username else username ++ "@" ++ realm

/-- The TLS-relevant part of the HTTP transport configuration. -/
structure TransportConfig where
  insecureSkipVerify : Bool
deriving DecidableEq, Repr

/-- Lines 76-83 of `main`: `http.DefaultClient` verifies certificates; when
`skipTLSVerify` is set the transport is replaced by one with
`InsecureSkipVerify: true`, disabling certificate chain validation for all
calls made through the client. -/
def clientTransport (skipTLSVerify : Bool) : TransportConfig :=
  if skipTLSVerify then { insecureSkipVerify := true } else { insecureSkipVerify := false }

/-- The program name (`os.Args 0`), abstracted to a fixed text. -/
def progName : String := "cli"

/-- The `usage` function: the usage text printed to standard output. -/
def usageOutput : String :=
  "\nUsage:\n  " ++ progName ++ " [options] <command> [<args>...]\n\n  Commands:\n\thelp [command]     Show help for a command\n\tlist [object type] List objects of a given type (e.g. cluster, node, storage, vm, ...)\n\tlogin              Login to Proxmox server and display credentials (not necessary for most commands)\n"

/-- The `help` function: detailed help for `list`, otherwise an
unknown-command line. -/
def helpOutput (command : String) : String :=
  if command = "list" then
    "List objects of a given type (e.g. cluster, node, storage, vm, ...)\nexamples:\n\t" ++ progName ++ " list cluster\n\t" ++ progName ++ " list node\n\t" ++ progName ++ " list storage\n\t" ++ progName ++ " list vm\n"
  else
    "Unknown command: " ++ command ++ "\n"

/-- The printed form of the `serverURL` operand in the debug log: the
source passes the flag pointer to `log.Println` without dereferencing it,
so the log shows a memory address, abstracted here to a fixed text. -/
def serverURLPointerText : String := "0xc000010000"

/-- Lines 63-74 of `main`: the debug-mode log line, which embeds the
plaintext username and password. -/
def debugLogLine (args : Args) : String :=
  "Connecting to " ++ serverURLPointerText ++ " with username " ++ args.username ++
    " and password " ++ args.password ++ " while skipping tls? " ++
    (if args.skipTLSVerify then "true" else "false")

/-- The body attribute lines of one node record: every attribute other
than the identity key `"node"`, printed as `fmt.Println "\t" attr ":" val`
does. -/
def nodeAttrLines (m : List (String × DynVal)) : List Event :=
  m.filterMap fun p =>
    if p.1 ≠ "node" then some (Event.out ("\t " ++ p.1 ++ " : " ++ p.2.render)) else none

/-- Lines 146-153 of `listNodes`: render one element of a node-info slice.
The cast of the element to a map is unchecked; the extraction of the
`"node"` identity is the two-valued checked assertion, so a missing or
non-string identity prints as an empty header. -/
def nodeRecordStep (node : DynVal) : Step :=
  match node with
  | .obj m => (Event.out (lookupString m "node") :: nodeAttrLines m, .ok ())
  | _ => ([], .error (.panicked panicNotObj))

/-- Line 146 of `listNodes`: the unchecked cast `nodeInfo.(slice)` followed
by the inner loop over its elements. -/
def nodeInfoStep (nodeInfo : DynVal) : Step :=
  match nodeInfo with
  | .arr l => seqSteps nodeRecordStep l
  | _ => ([], .error (.panicked panicNotArr))

/-- `listNodes`: fetch the node list (fatal on error) and render each
record. -/
def listNodesRun (env : ClientEnv) : Step :=
  withEvents [Event.call .getNodeList] <|
    match env.getNodeList with
    | .error e => fatalStep ("Failed to list nodes " ++ e)
    | .ok nodes => seqSteps nodeInfoStep (nodes.map Prod.snd)

/-- The body attribute lines of one storage record: every attribute other
than the identity key `"storage"`, printed as
`fmt.Printf "\t\t%s:%+v\n"` does. -/
def storageAttrLines (m : List (String × DynVal)) : List Event :=
  m.filterMap fun p =>
    if p.1 ≠ "storage" then some (Event.out ("\t\t" ++ p.1 ++ ":" ++ p.2.render)) else none

/-- Lines 172-180 of `listStorages`: render one storage record.  Both the
cast to a map and the extraction of the `"storage"` identity are
unchecked, so a malformed record panics. -/
def storageRecordStep (storage : DynVal) : Step :=
  match storage with
  | .obj m =>
    match lookupStringE m "storage" with
    | .error t => ([], .error t)
    | .ok storageName =>
      (Event.out ("\t " ++ storageName) :: storageAttrLines m, .ok ())
  | _ => ([], .error (.panicked panicNotObj))

/-- Lines 164-181 of `listStorages`: process one node record.  The cast to
a map and the extraction of the `"node"` identity are unchecked (panic on
a malformed record); the node name is printed, then the per-node storage
listing is fetched — a failure there is fatal for the whole run. -/
def storageNodeStep (env : ClientEnv) (node : DynVal) : Step :=
  match node with
  | .obj m =>
    match lookupStringE m "node" with
    | .error t => ([], .error t)
    | .ok nodeName =>
      withEvents [Event.out nodeName, Event.call (.listStoragesOn nodeName)] <|
        match env.listStorages nodeName with
        | .error e => fatalStep ("Failed to fetch storages for node " ++ nodeName ++ ": " ++ e)
        | .ok storages => seqSteps storageRecordStep storages
  | _ => ([], .error (.panicked panicNotObj))

/-- Line 164 of `listStorages`: the unchecked cast `nodeInfo.(slice)` and
the loop over its elements. -/
def storageNodeInfoStep (env : ClientEnv) (nodeInfo : DynVal) : Step :=
  match nodeInfo with
  | .arr l => seqSteps (storageNodeStep env) l
  | _ => ([], .error (.panicked panicNotArr))

/-- `listStorages`: fetch the node list (fatal on error), then per node
print its name and its storages. -/
def listStoragesRun (env : ClientEnv) : Step :=
  withEvents [Event.call .getNodeList] <|
    match env.getNodeList with
    | .error e => fatalStep ("Failed to list nodes " ++ e)
    | .ok nodes => seqSteps (storageNodeInfoStep env) (nodes.map Prod.snd)

/-- The status attribute lines of one VM record: every attribute other
than the identity key `"name"`, printed as `fmt.Printf "\t%s: %+v\n"`
does. -/
def vmStatusLines (m : List (String × DynVal)) : List Event :=
  m.filterMap fun p =>
    if p.1 ≠ "name" then some (Event.out ("\t" ++ p.1 ++ ": " ++ p.2.render)) else none

/-- The configuration lines of one VM: every attribute of the
configuration record, printed as `fmt.Printf "\t%s: %+v\n"` does. -/
def configLines (cfg : List (String × DynVal)) : List Event :=
  cfg.map fun p => Event.out ("\t" ++ p.1 ++ ": " ++ p.2.render)

/-- The header of one VM block: the identity value as an unlabeled line,
the ` Status:` label, and the status attribute lines. -/
def vmHeaderLines (m : List (String × DynVal)) : List Event :=
  Event.out (lookupString m "name") :: Event.out " Status:" :: vmStatusLines m

/-- Lines 210-231 of `listVMs`: the dependent fetches of one VM record,
keyed by its identity.  Reference resolution and configuration fetch are
fatal on error; the agent network-interface fetch is tolerated — its
failure prints a `Not available:` line and the record still completes
normally. -/
def vmFetches (env : ClientEnv) (name : String) : Step :=
  withEvents [Event.call (.getVmRefByName name)] <|
    match env.getVmRefByName name with
    | .error e => fatalStep ("Failed to get VM reference " ++ e)
    | .ok vmRef =>
      withEvents [Event.call (.getVmConfig vmRef)] <|
        match env.getVmConfig vmRef with
        | .error e => fatalStep ("Failed to get VM config " ++ e)
        | .ok vmConfig =>
          withEvents (Event.out " Config:" :: configLines vmConfig) <|
            withEvents [Event.out " Agent network interfaces:",
                Event.call (.getVmAgentNetworkInterfaces vmRef)] <|
              match env.getVmAgentNetworkInterfaces vmRef with
              | .error e => ([Event.out ("\tNot available: " ++ e)], .ok ())
              | .ok ifaces =>
                (ifaces.map (fun i => Event.out ("\t " ++ i.render)), .ok ())

/-- Lines 200-231 of `listVMs`: process one VM record.  The cast to a map
is unchecked but the `"name"` identity uses the two-valued checked
assertion, so rendering survives a malformed identity with an empty
header; then the dependent fetches run. -/
def vmStep (env : ClientEnv) (vm : DynVal) : Step :=
  match vm with
  | .obj m => withEvents (vmHeaderLines m) (vmFetches env (lookupString m "name"))
  | _ => ([], .error (.panicked panicNotObj))

/-- Line 200 of `listVMs`: the unchecked cast `vmInfo.(slice)` and the
loop over its elements. -/
def vmInfoStep (env : ClientEnv) (vmInfo : DynVal) : Step :=
  match vmInfo with
  | .arr l => seqSteps (vmStep env) l
  | _ => ([], .error (.panicked panicNotArr))

/-- `listVMs`: fetch the VM list (fatal on error) and process each
record. -/
def listVMsRun (env : ClientEnv) : Step :=
  withEvents [Event.call .getVmList] <|
    match env.getVmList with
    | .error e => fatalStep ("Failed to list VMs " ++ e)
    | .ok vms => seqSteps (vmInfoStep env) (vms.map Prod.snd)

/-- `listClusters`: unconditionally fatal, no network call. -/
def clusterUnsupportedMsg : String := "Cluster operations are not yet supported :("

/-- `listClusters` performs no client call: it terminates the run at once
with the unsupported-operation message. -/
def listClustersRun : Step := fatalStep clusterUnsupportedMsg

/-- Lines 111-123 of `main`: dispatch on the object-type token of the
`list` command; an unrecognized token shows help for the command and exits
with status 0. -/
def dispatchList (args : Args) (env : ClientEnv) : Step :=
  let sub := argN args 1
  if sub = "c" ∨ sub = "cluster" ∨ sub = "clusters" then listClustersRun
  else if sub = "n" ∨ sub = "node" ∨ sub = "nodes" then listNodesRun env
  else if sub = "s" ∨ sub = "storage" then listStoragesRun env
  else if sub = "v" ∨ sub = "vm" ∨ sub = "vms" then listVMsRun env
  else ([.out (helpOutput (argN args 0))], .error (.exited 0))

/-- The command dispatch of lines 100-124 of `main`: `help` (in either
arity) exits with status 0, `list` dispatches on its object-type token,
and any other command falls through the `switch`, returning normally. -/
def dispatchCommand (args : Args) (env : ClientEnv) : Step :=
  let command := argN args 0
  if command = "h" ∨ command = "help" then
    if args.positional.length = 2 then ([.out (helpOutput command)], .error (.exited 0))
    else ([.out usageOutput], .error (.exited 0))
  else if command = "l" ∨ command = "ls" ∨ command = "list" then
    dispatchList args env
  else ([], .ok ())

/-- The whole `main` function: missing command prints usage and exits with
status 1; otherwise the optional debug log is written, the client is
constructed (fatal on error), the username is realm-qualified, login is
attempted (a network call, fatal on error), and only then is the command
dispatched. -/
def mainRun (args : Args) (env : ClientEnv) : Step :=
  let command := argN args 0
  if command = "" then ([.out usageOutput], .error (.exited 1))
  else
    let debugEvs : List Event := if args.debug then [.logLine (debugLogLine args)] else []
    withEvents debugEvs <|
      match env.newClientResult with
      | .error e => fatalStep ("Failed to create client " ++ e)
      | .ok _ =>
        let usernameWithRealm := normalizedUsername args.username args.realm
        withEvents [Event.call (.login usernameWithRealm args.password args.otp)] <|
          match env.login usernameWithRealm args.password args.otp with
          | .error e => fatalStep ("Failed to login " ++ e)
          | .ok _ => dispatchCommand args env

/-- Number of at signs in a string. -/
def atSignCount (s : String) : Nat := s.toList.count '@'

/-- The events emitted by running `step` over every element of a list
without early termination. -/
def stepEvents {α : Type} (step : α → Step) : List α → List Event
  | [] => []
  | x :: xs => (step x).1 ++ stepEvents step xs

theorem seqSteps_cons_error {α : Type} (step : α → Step) (x : α) (xs : List α) (t : Term)
    (h : (step x).2 = .error t) : seqSteps step (x :: xs) = ((step x).1, .error t) := by
  rcases hs : step x with ⟨evs, r⟩
  rw [hs] at h
  simp only at h
  subst h
  simp [seqSteps, hs]

theorem seqSteps_cons_ok {α : Type} (step : α → Step) (x : α) (xs : List α)
    (h : (step x).2 = .ok ()) :
    seqSteps step (x :: xs) = ((step x).1 ++ (seqSteps step xs).1, (seqSteps step xs).2) := by
  rcases hs : step x with ⟨evs, r⟩
  rw [hs] at h
  simp only at h
  subst h
  simp [seqSteps, hs]

theorem seqSteps_all_ok {α : Type} (step : α → Step) (xs : List α)
    (h : ∀ x ∈ xs, (step x).2 = .ok ()) :
    seqSteps step xs = (stepEvents step xs, .ok ()) := by
  induction xs with
  | nil => rfl
  | cons x xs ih =>
    rw [seqSteps_cons_ok step x xs (h x (by simp)),
      ih (fun y hy => h y (by simp [hy])), stepEvents]

theorem seqSteps_append_ok {α : Type} (step : α → Step) (xs ys : List α)
    (h : ∀ x ∈ xs, (step x).2 = .ok ()) :
    seqSteps step (xs ++ ys) =
      (stepEvents step xs ++ (seqSteps step ys).1, (seqSteps step ys).2) := by
  induction xs with
  | nil => simp [stepEvents]
  | cons x xs ih =>
    rw [List.cons_append, seqSteps_cons_ok step x (xs ++ ys) (h x (by simp)),
      ih (fun y hy => h y (by simp [hy])), stepEvents]
    simp

theorem mem_stepEvents {α : Type} (step : α → Step) (xs : List α) (x : α) (e : Event)
    (hx : x ∈ xs) (he : e ∈ (step x).1) : e ∈ stepEvents step xs := by
  induction xs with
  | nil => cases hx
  | cons y ys ih =>
    rw [stepEvents, List.mem_append]
    rcases List.mem_cons.mp hx with h | h
    · exact Or.inl (h ▸ he)
    · exact Or.inr (ih h)

/-- Claim C1: credential normalization.  A username already carrying an at
sign is returned unchanged and the realm argument is ignored; otherwise
the realm is appended after an at sign.  In particular
`normalizedUsername "root" "pam"` is `root@pam` and
`normalizedUsername "root@pve" "pam"` is `root@pve`. -/
theorem credential_normalization (u r r' : String) :
    (containsAtSign u = true →
      normalizedUsername u r = u ∧ normalizedUsername u r = normalizedUsername u r')
    ∧ (containsAtSign u = false → normalizedUsername u r = u ++ "@" ++ r)
    ∧ normalizedUsername "root" "pam" = "root@pam"
    ∧ normalizedUsername "root@pve" "pam" = "root@pve" := by
  refine ⟨fun h => ⟨?_, ?_⟩, fun h => ?_, by decide, by decide⟩
  · simp [normalizedUsername, h]
  · simp [normalizedUsername, h]
  · simp [normalizedUsername, h]

theorem credential_normalization_witness :
    containsAtSign "root@pve" = true ∧ normalizedUsername "root@pve" "pam" = "root@pve" :=
  ⟨by decide, ((credential_normalization "root@pve" "pam" "x").1 (by decide)).1⟩

/-- Claim C2 counterexample: the one-at-sign invariant fails for a realm
that itself contains an at sign.  With the non-empty, at-sign-free
username `root` and the realm `p@m` the normalized principal is
`root@p@m`, which contains two at signs, not one. -/
theorem one_at_invariant_cex :
    "root" ≠ "" ∧ containsAtSign "root" = false
    ∧ atSignCount (normalizedUsername "root" "p@m") = 2
    ∧ atSignCount (normalizedUsername "root" "p@m") ≠ 1 := by
  refine ⟨by decide, by decide, by decide, by decide⟩

/-- Claim C2 (amended): for every non-empty username without an at sign
and every realm without an at sign, the normalized principal contains
exactly one at sign. -/
theorem one_at_invariant (u r : String) (hu : u ≠ "")
    (hcu : containsAtSign u = false) (hcr : containsAtSign r = false) :
    atSignCount (normalizedUsername u r) = 1 := by
  have hnorm : normalizedUsername u r = u ++ "@" ++ r := by
    simp [normalizedUsername, hcu]
  have htl : (u ++ "@" ++ r).toList = u.toList ++ "@".toList ++ r.toList := by
    rcases u with ⟨lu⟩
    rcases r with ⟨lr⟩
    rfl
  have hzu : u.toList.count '@' = 0 := by
    rw [List.count_eq_zero]
    intro hm
    unfold containsAtSign at hcu
    simp at hcu
    exact hcu hm
  have hzr : r.toList.count '@' = 0 := by
    rw [List.count_eq_zero]
    intro hm
    unfold containsAtSign at hcr
    simp at hcr
    exact hcr hm
  rw [atSignCount, hnorm, htl, List.count_append, List.count_append, hzu, hzr]
  decide

theorem one_at_invariant_witness : atSignCount (normalizedUsername "root" "pam") = 1 :=
  one_at_invariant "root" "pam" (by decide) (by decide) (by decide)

/-- When a command is given and both client construction and login
succeed, `main` is the debug log (when enabled) followed by the login
network call followed by the command dispatch. -/
theorem mainRun_eq_dispatch (args : Args) (env : ClientEnv)
    (hc : argN args 0 ≠ "")
    (hnc : env.newClientResult = .ok ())
    (hlogin : env.login (normalizedUsername args.username args.realm)
      args.password args.otp = .ok ()) :
    mainRun args env =
      ((if args.debug then [Event.logLine (debugLogLine args)] else [])
        ++ Event.call (.login (normalizedUsername args.username args.realm)
            args.password args.otp) :: (dispatchCommand args env).1,
       (dispatchCommand args env).2) := by
  unfold mainRun
  rw [if_neg hc]
  simp only [hnc]
  simp [hlogin, withEvents]

/-- Claim C3: storage enumeration is fatal on the first per-node failure.
If every node before `mb` is processed successfully and the storage
listing for `mb`'s node name fails, `listStorages` terminates with the
fatal (non-zero-exit) error for that node, and the whole event trace is
the successful prefix followed by that node's name, the failing call and
the fatal log line — nothing at all is produced for the nodes in
`post`. -/
theorem storage_failure_fatal (env : ClientEnv) (pre post : List DynVal)
    (mb : List (String × DynVal)) (k nb e : String)
    (hnodes : env.getNodeList = .ok [(k, DynVal.arr (pre ++ DynVal.obj mb :: post))])
    (hpre : ∀ n ∈ pre, (storageNodeStep env n).2 = .ok ())
    (hname : lookup mb "node" = some (DynVal.str nb))
    (hfail : env.listStorages nb = .error e) :
    (listStoragesRun env).2 =
      .error (.fatal ("Failed to fetch storages for node " ++ nb ++ ": " ++ e))
    ∧ exitCode (listStoragesRun env).2 ≠ 0
    ∧ (listStoragesRun env).1 =
        Event.call .getNodeList :: stepEvents (storageNodeStep env) pre
          ++ [Event.out nb, Event.call (.listStoragesOn nb),
              Event.logLine ("Failed to fetch storages for node " ++ nb ++ ": " ++ e)] := by
  have hstep : storageNodeStep env (DynVal.obj mb) =
      ([Event.out nb, Event.call (.listStoragesOn nb),
        Event.logLine ("Failed to fetch storages for node " ++ nb ++ ": " ++ e)],
       .error (.fatal ("Failed to fetch storages for node " ++ nb ++ ": " ++ e))) := by
    simp [storageNodeStep, lookupStringE, hname, hfail, withEvents, fatalStep]
  have hterm : (storageNodeStep env (DynVal.obj mb)).2 =
      Except.error (Term.fatal ("Failed to fetch storages for node " ++ nb ++ ": " ++ e)) := by
    rw [hstep]
  have hinner : seqSteps (storageNodeStep env) (pre ++ DynVal.obj mb :: post)
      = (stepEvents (storageNodeStep env) pre ++ (storageNodeStep env (DynVal.obj mb)).1,
         Except.error (Term.fatal ("Failed to fetch storages for node " ++ nb ++ ": " ++ e))) := by
    rw [seqSteps_append_ok _ _ _ hpre, seqSteps_cons_error _ _ _ _ hterm]
  have hinfo : storageNodeInfoStep env (DynVal.arr (pre ++ DynVal.obj mb :: post))
      = (stepEvents (storageNodeStep env) pre ++ (storageNodeStep env (DynVal.obj mb)).1,
         Except.error (Term.fatal ("Failed to fetch storages for node " ++ nb ++ ": " ++ e))) := by
    simp only [storageNodeInfoStep]
    exact hinner
  have hrun : listStoragesRun env =
      (Event.call .getNodeList :: stepEvents (storageNodeStep env) pre
        ++ [Event.out nb, Event.call (.listStoragesOn nb),
            Event.logLine ("Failed to fetch storages for node " ++ nb ++ ": " ++ e)],
       .error (.fatal ("Failed to fetch storages for node " ++ nb ++ ": " ++ e))) := by
    unfold listStoragesRun
    rw [hnodes]
    simp only [List.map_cons, List.map_nil]
    rw [seqSteps_cons_error _ _ _ _ (by rw [hinfo])]
    rw [hinfo, hstep]
    simp [withEvents]
  exact ⟨by rw [hrun], by rw [hrun]; simp [exitCode], by rw [hrun]⟩

/-- A client environment in which every call succeeds and the inventories
are empty. -/
def envAllOk : ClientEnv :=
  { newClientResult := .ok ()
    login := fun _ _ _ => .ok ()
    getNodeList := .ok [("data", DynVal.arr [])]
    listStorages := fun _ => .ok []
    getVmList := .ok [("data", DynVal.arr [])]
    getVmRefByName := fun _ => .ok ⟨100⟩
    getVmConfig := fun _ => .ok []
    getVmAgentNetworkInterfaces := fun _ => .ok [] }

/-- A client environment with nodes `a` and `b` in which the per-node
storage listing succeeds for `a` and fails for `b`. -/
def envStorageBFails : ClientEnv :=
  { envAllOk with
    getNodeList := .ok [("data", DynVal.arr
      [DynVal.obj [("node", DynVal.str "a")], DynVal.obj [("node", DynVal.str "b")]])]
    listStorages := fun n =>
      if n = "a" then .ok [DynVal.obj [("storage", DynVal.str "local")]]
      else .error "connection refused" }

theorem storage_failure_fatal_witness :
    (listStoragesRun envStorageBFails).2 =
      .error (.fatal ("Failed to fetch storages for node " ++ "b" ++ ": " ++ "connection refused"))
    ∧ exitCode (listStoragesRun envStorageBFails).2 ≠ 0
    ∧ (listStoragesRun envStorageBFails).1 =
        Event.call .getNodeList
          :: stepEvents (storageNodeStep envStorageBFails) [DynVal.obj [("node", DynVal.str "a")]]
          ++ [Event.out "b", Event.call (.listStoragesOn "b"),
              Event.logLine ("Failed to fetch storages for node " ++ "b" ++ ": "
                ++ "connection refused")] :=
  storage_failure_fatal envStorageBFails [DynVal.obj [("node", DynVal.str "a")]] []
    [("node", DynVal.str "b")] "data" "b" "connection refused" rfl
    (by
      intro n hn
      simp only [List.mem_singleton] at hn
      subst hn
      rfl)
    rfl rfl

/-- When reference resolution and configuration fetch succeed but the
agent network-interface fetch fails, the dependent fetches of a VM record
print a `Not available:` line and still complete normally. -/
theorem vmFetches_agent_error (env : ClientEnv) (name e : String) (vmRef : VmRef)
    (cfg : List (String × DynVal))
    (href : env.getVmRefByName name = .ok vmRef)
    (hcfg : env.getVmConfig vmRef = .ok cfg)
    (hagent : env.getVmAgentNetworkInterfaces vmRef = .error e) :
    vmFetches env name =
      (Event.call (.getVmRefByName name) :: Event.call (.getVmConfig vmRef)
        :: Event.out " Config:" :: configLines cfg
        ++ [Event.out " Agent network interfaces:",
            Event.call (.getVmAgentNetworkInterfaces vmRef),
            Event.out ("\tNot available: " ++ e)],
       .ok ()) := by
  simp [vmFetches, href, hcfg, hagent, withEvents]

/-- Claim C4: the agent network-interface fetch is tolerated.  For a `list
vm` invocation in which client construction and login succeed, the VM
listing succeeds, and every VM record processes without fatal error, a
record whose reference resolution and configuration fetch succeed but
whose agent-interface fetch fails contributes a `Not available:` line to
the output, and the whole run exits with code 0. -/
theorem vm_agent_failure_tolerated (args : Args) (env : ClientEnv)
    (k e : String) (vmsList : List DynVal) (m : List (String × DynVal)) (vmRef : VmRef)
    (cfg : List (String × DynVal))
    (hcmd : argN args 0 = "list") (hsub : argN args 1 = "vm")
    (hnc : env.newClientResult = .ok ())
    (hlogin : env.login (normalizedUsername args.username args.realm)
      args.password args.otp = .ok ())
    (hvms : env.getVmList = .ok [(k, DynVal.arr vmsList)])
    (hall : ∀ v ∈ vmsList, (vmStep env v).2 = .ok ())
    (hmem : DynVal.obj m ∈ vmsList)
    (href : env.getVmRefByName (lookupString m "name") = .ok vmRef)
    (hcfg : env.getVmConfig vmRef = .ok cfg)
    (hagent : env.getVmAgentNetworkInterfaces vmRef = .error e) :
    exitCode (mainRun args env).2 = 0
    ∧ Event.out ("\tNot available: " ++ e) ∈ (mainRun args env).1 := by
  have hsteps : seqSteps (vmStep env) vmsList = (stepEvents (vmStep env) vmsList, .ok ()) :=
    seqSteps_all_ok _ _ hall
  have hinfo : vmInfoStep env (DynVal.arr vmsList)
      = (stepEvents (vmStep env) vmsList, .ok ()) := by
    simp only [vmInfoStep]
    exact hsteps
  have hlist : listVMsRun env
      = (Event.call .getVmList :: stepEvents (vmStep env) vmsList, .ok ()) := by
    unfold listVMsRun
    rw [hvms]
    simp only [List.map_cons, List.map_nil]
    rw [seqSteps_cons_ok _ _ _ (by rw [hinfo]), hinfo]
    simp [withEvents, seqSteps]
  have hdisp : dispatchCommand args env = listVMsRun env := by
    unfold dispatchCommand dispatchList
    rw [hcmd, hsub]
    simp
  have hmain := mainRun_eq_dispatch args env (by rw [hcmd]; decide) hnc hlogin
  rw [hdisp, hlist] at hmain
  constructor
  · rw [hmain]
    rfl
  · rw [hmain]
    have hev : Event.out ("\tNot available: " ++ e) ∈ (vmStep env (DynVal.obj m)).1 := by
      simp only [vmStep, withEvents]
      rw [vmFetches_agent_error env (lookupString m "name") e vmRef cfg href hcfg hagent]
      simp
    have : Event.out ("\tNot available: " ++ e) ∈ stepEvents (vmStep env) vmsList :=
      mem_stepEvents _ _ _ _ hmem hev
    simp [this]

/-- A client environment with one VM `vm1` whose reference resolution and
configuration fetch succeed but whose agent network-interface fetch
fails. -/
def envVmAgentFails : ClientEnv :=
  { envAllOk with
    getVmList := .ok [("data", DynVal.arr [DynVal.obj [("name", DynVal.str "vm1")]])]
    getVmRefByName := fun n => if n = "vm1" then .ok ⟨100⟩ else .error "not found"
    getVmConfig := fun _ => .ok [("cores", DynVal.num 1)]
    getVmAgentNetworkInterfaces := fun _ => .error "guest agent not running" }

/-- Arguments for a plain `list vm` invocation. -/
def argsListVm : Args :=
  { username := "root", password := "pw", otp := "",
    serverURL := "https://localhost:8006/api2/json", skipTLSVerify := false,
    debug := false, realm := "pam", positional := ["list", "vm"] }

theorem vm_agent_failure_tolerated_witness :
    exitCode (mainRun argsListVm envVmAgentFails).2 = 0
    ∧ Event.out ("\tNot available: " ++ "guest agent not running")
        ∈ (mainRun argsListVm envVmAgentFails).1 :=
  vm_agent_failure_tolerated argsListVm envVmAgentFails "data" "guest agent not running"
    [DynVal.obj [("name", DynVal.str "vm1")]] [("name", DynVal.str "vm1")] ⟨100⟩
    [("cores", DynVal.num 1)] rfl rfl rfl rfl rfl
    (by
      intro v hv
      simp only [List.mem_singleton] at hv
      subst hv
      rfl)
    (by simp)
    rfl rfl rfl

/-- Arguments for a `list cluster` invocation. -/
def argsListCluster : Args :=
  { username := "root", password := "pw", otp := "",
    serverURL := "https://localhost:8006/api2/json", skipTLSVerify := false,
    debug := false, realm := "pam", positional := ["list", "cluster"] }

/-- Claim C5 counterexample: a `list cluster` invocation does terminate
fatally with the unsupported message, but it is not true that no network
call is ever attempted — the login handshake, which precedes command
dispatch, issues a network call during this very run. -/
theorem cluster_network_call_cex :
    Event.call (ApiCall.login "root@pam" "pw" "") ∈ (mainRun argsListCluster envAllOk).1
    ∧ (mainRun argsListCluster envAllOk).2 = .error (.fatal clusterUnsupportedMsg) := by
  constructor
  · decide
  · rfl

/-- Claim C5 (amended): when client construction and login succeed, every
invocation requesting the cluster category terminates fatally with the
unsupported message, and the only network call of the whole run is the
login handshake — in particular no cluster-listing (or any other listing)
call is ever attempted. -/
theorem cluster_unsupported (args : Args) (env : ClientEnv)
    (hcmd : argN args 0 = "l" ∨ argN args 0 = "ls" ∨ argN args 0 = "list")
    (hsub : argN args 1 = "c" ∨ argN args 1 = "cluster" ∨ argN args 1 = "clusters")
    (hnc : env.newClientResult = .ok ())
    (hlogin : env.login (normalizedUsername args.username args.realm)
      args.password args.otp = .ok ()) :
    (mainRun args env).2 = .error (.fatal clusterUnsupportedMsg)
    ∧ callEvents (mainRun args env).1 =
        [ApiCall.login (normalizedUsername args.username args.realm)
          args.password args.otp] := by
  have hc : argN args 0 ≠ "" := by
    rcases hcmd with h | h | h <;> rw [h] <;> decide
  have hdisp : dispatchCommand args env = listClustersRun := by
    unfold dispatchCommand dispatchList
    rcases hcmd with h | h | h <;> rcases hsub with h2 | h2 | h2 <;>
      rw [h, h2] <;> simp
  have hmain := mainRun_eq_dispatch args env hc hnc hlogin
  rw [hdisp] at hmain
  rw [hmain]
  constructor
  · rfl
  · cases hdbg : args.debug <;>
      simp [callEvents, listClustersRun, fatalStep]

theorem cluster_unsupported_witness :
    (mainRun argsListCluster envAllOk).2 = .error (.fatal clusterUnsupportedMsg)
    ∧ callEvents (mainRun argsListCluster envAllOk).1 =
        [ApiCall.login (normalizedUsername "root" "pam") "pw" ""] :=
  cluster_unsupported argsListCluster envAllOk (Or.inr (Or.inr rfl)) (Or.inr (Or.inl rfl))
    rfl rfl

/-- The body of a node block consists of exactly the non-identity
attributes, each rendered as an indented key/value line, in record
order. -/
theorem nodeAttrLines_eq (m : List (String × DynVal)) :
    nodeAttrLines m = (m.filter (fun p => p.1 ≠ "node")).map
      (fun p => Event.out ("\t " ++ p.1 ++ " : " ++ p.2.render)) := by
  induction m with
  | nil => rfl
  | cons p rest ih =>
    by_cases h : p.1 = "node"
    · simp [nodeAttrLines, List.filter_cons, h]
      simpa [nodeAttrLines] using ih
    · simp [nodeAttrLines, List.filter_cons, h]
      simpa [nodeAttrLines] using ih

/-- Claim C6: renderer ordering and identity exclusion.  When the node
listing returns a slice of records, the run succeeds, the trace is the
listing call followed by the records' blocks in order, and every block is
the record's identity value as an unlabeled header line followed by
exactly its non-identity attributes as indented key/value lines — the
identity key never reappears as a body line. -/
theorem node_render_blocks (env : ClientEnv) (k : String)
    (recs : List (List (String × DynVal)))
    (hn : env.getNodeList = .ok [(k, DynVal.arr (recs.map DynVal.obj))]) :
    (listNodesRun env).2 = .ok ()
    ∧ (listNodesRun env).1 =
        Event.call .getNodeList :: stepEvents nodeRecordStep (recs.map DynVal.obj)
    ∧ ∀ m ∈ recs, (nodeRecordStep (DynVal.obj m)).1 =
        Event.out (lookupString m "node") ::
          (m.filter (fun p => p.1 ≠ "node")).map
            (fun p => Event.out ("\t " ++ p.1 ++ " : " ++ p.2.render)) := by
  have hallOk : ∀ x ∈ recs.map DynVal.obj, (nodeRecordStep x).2 = .ok () := by
    intro x hx
    obtain ⟨m, _, rfl⟩ := List.mem_map.mp hx
    rfl
  have hsteps : seqSteps nodeRecordStep (recs.map DynVal.obj)
      = (stepEvents nodeRecordStep (recs.map DynVal.obj), .ok ()) :=
    seqSteps_all_ok _ _ hallOk
  have hinfo : nodeInfoStep (DynVal.arr (recs.map DynVal.obj))
      = (stepEvents nodeRecordStep (recs.map DynVal.obj), .ok ()) := by
    simp only [nodeInfoStep]
    exact hsteps
  have hrun : listNodesRun env
      = (Event.call .getNodeList :: stepEvents nodeRecordStep (recs.map DynVal.obj),
         .ok ()) := by
    unfold listNodesRun
    rw [hn]
    simp only [List.map_cons, List.map_nil]
    rw [seqSteps_cons_ok _ _ _ (by rw [hinfo]), hinfo]
    simp [withEvents, seqSteps]
  refine ⟨by rw [hrun], by rw [hrun], fun m _ => ?_⟩
  simp only [nodeRecordStep]
  rw [nodeAttrLines_eq]

/-- A client environment whose node listing returns the two records of the
specification's example. -/
def envNodesAB : ClientEnv :=
  { envAllOk with
    getNodeList := .ok [("data", DynVal.arr
      [DynVal.obj [("node", DynVal.str "a"), ("cpu", DynVal.num 4)],
       DynVal.obj [("node", DynVal.str "b"), ("cpu", DynVal.num 2)]])] }

theorem node_render_blocks_witness :
    (listNodesRun envNodesAB).2 = .ok ()
    ∧ (listNodesRun envNodesAB).1 =
        [Event.call .getNodeList, Event.out "a", Event.out ("\t " ++ "cpu" ++ " : " ++ "4"),
         Event.out "b", Event.out ("\t " ++ "cpu" ++ " : " ++ "2")] := by
  obtain ⟨h1, h2, _⟩ := node_render_blocks envNodesAB "data"
    [[("node", DynVal.str "a"), ("cpu", DynVal.num 4)],
     [("node", DynVal.str "b"), ("cpu", DynVal.num 2)]] rfl
  refine ⟨h1, ?_⟩
  rw [h2]
  rfl

/-- The object-type tokens recognized by the `list` command. -/
def knownListTokens : List String :=
  ["c", "cluster", "clusters", "n", "node", "nodes", "s", "storage", "v", "vm", "vms"]

/-- Arguments for a bare `help` invocation. -/
def argsHelpOnly : Args :=
  { username := "root", password := "pw", otp := "",
    serverURL := "https://localhost:8006/api2/json", skipTLSVerify := false,
    debug := false, realm := "pam", positional := ["help"] }

/-- A client environment in which login is rejected. -/
def envBadLogin : ClientEnv :=
  { envAllOk with login := fun _ _ _ => .error "bad credentials" }

/-- Claim C7 counterexample: an invocation of the `help` command does not
always exit with code 0, because `main` logs in before dispatching any
command — when login fails, even `help` dies fatally with exit code 1. -/
theorem help_exit_code_cex :
    argN argsHelpOnly 0 = "help"
    ∧ exitCode (mainRun argsHelpOnly envBadLogin).2 = 1
    ∧ exitCode (mainRun argsHelpOnly envBadLogin).2 ≠ 0
    ∧ (mainRun argsHelpOnly envBadLogin).2 =
        .error (.fatal ("Failed to login " ++ "bad credentials")) := by
  refine ⟨rfl, rfl, by decide, rfl⟩

/-- Claim C7 (amended): an invocation supplying no command at all exits
with code 1 (this needs no login); and when client construction and login
succeed, every `help` invocation exits with code 0 and every `list`
invocation with an unrecognized object-type token shows help and exits
with code 0. -/
theorem exit_codes (args : Args) (env : ClientEnv) :
    (argN args 0 = "" → exitCode (mainRun args env).2 = 1)
    ∧ (env.newClientResult = .ok () →
        env.login (normalizedUsername args.username args.realm)
          args.password args.otp = .ok () →
        (((argN args 0 = "h" ∨ argN args 0 = "help") →
            exitCode (mainRun args env).2 = 0)
         ∧ ((argN args 0 = "l" ∨ argN args 0 = "ls" ∨ argN args 0 = "list") →
            argN args 1 ∉ knownListTokens → exitCode (mainRun args env).2 = 0))) := by
  refine ⟨fun h => ?_, fun hnc hlogin => ⟨fun hcmd => ?_, fun hcmd hsub => ?_⟩⟩
  · unfold mainRun
    rw [if_pos h]
    rfl
  · have hc : argN args 0 ≠ "" := by rcases hcmd with h | h <;> rw [h] <;> decide
    have hmain := mainRun_eq_dispatch args env hc hnc hlogin
    have hdisp : (dispatchCommand args env).2 = .error (.exited 0) := by
      rcases hcmd with h | h <;>
        by_cases hl : args.positional.length = 2 <;>
        simp [dispatchCommand, h, hl]
    rw [hmain]
    show exitCode (dispatchCommand args env).2 = 0
    rw [hdisp]
    rfl
  · have hc : argN args 0 ≠ "" := by rcases hcmd with h | h | h <;> rw [h] <;> decide
    have hmain := mainRun_eq_dispatch args env hc hnc hlogin
    simp only [knownListTokens, List.mem_cons, List.not_mem_nil, or_false, not_or] at hsub
    obtain ⟨h1, h2, h3, h4, h5, h6, h7, h8, h9, h10, h11⟩ := hsub
    have hdisp : (dispatchCommand args env).2 = .error (.exited 0) := by
      rcases hcmd with h | h | h <;>
        simp [dispatchCommand, dispatchList, h, h1, h2, h3, h4, h5, h6, h7, h8, h9, h10, h11]
    rw [hmain]
    show exitCode (dispatchCommand args env).2 = 0
    rw [hdisp]
    rfl

/-- Arguments supplying no command at all. -/
def argsNoCmd : Args :=
  { username := "root", password := "pw", otp := "",
    serverURL := "https://localhost:8006/api2/json", skipTLSVerify := false,
    debug := false, realm := "pam", positional := [] }

/-- Arguments for a `list` invocation with an unrecognized object-type
token. -/
def argsListUnknown : Args :=
  { username := "root", password := "pw", otp := "",
    serverURL := "https://localhost:8006/api2/json", skipTLSVerify := false,
    debug := false, realm := "pam", positional := ["list", "container"] }

theorem exit_codes_witness :
    exitCode (mainRun argsNoCmd envAllOk).2 = 1
    ∧ exitCode (mainRun argsHelpOnly envAllOk).2 = 0
    ∧ exitCode (mainRun argsListUnknown envAllOk).2 = 0 :=
  ⟨(exit_codes argsNoCmd envAllOk).1 rfl,
   ((exit_codes argsHelpOnly envAllOk).2 rfl rfl).1 (Or.inr rfl),
   ((exit_codes argsListUnknown envAllOk).2 rfl rfl).2 (Or.inr (Or.inr rfl)) (by decide)⟩

/-- Arguments for a `list node` invocation with TLS verification skipped
and debug mode off. -/
def argsSkipTLSQuiet : Args :=
  { username := "root", password := "pw", otp := "",
    serverURL := "https://localhost:8006/api2/json", skipTLSVerify := true,
    debug := false, realm := "pam", positional := ["list", "node"] }

/-- Claim C8 counterexample: with `skipTLSVerify` set but debug mode off,
the run completes without writing a single diagnostic-log line — no
warning about the unsafe mode is ever emitted. -/
theorem skiptls_warning_cex :
    argsSkipTLSQuiet.skipTLSVerify = true
    ∧ logTexts (mainRun argsSkipTLSQuiet envAllOk).1 = []
    ∧ exitCode (mainRun argsSkipTLSQuiet envAllOk).2 = 0 := by
  refine ⟨rfl, rfl, rfl⟩

/-- Claim C8 (amended): with `skipTLSVerify` set, certificate chain
validation is disabled on the transport used for all subsequent calls
(while the default transport verifies); but a diagnostic mentioning the
skip is emitted only when the debug flag is also set — it then leads the
trace and ends with the `skipping tls? true` marker. -/
theorem skiptls_behavior (args : Args) (env : ClientEnv)
    (h : args.skipTLSVerify = true) :
    (clientTransport args.skipTLSVerify).insecureSkipVerify = true
    ∧ (clientTransport false).insecureSkipVerify = false
    ∧ (args.debug = true → argN args 0 ≠ "" →
        (mainRun args env).1.head? = some (.logLine (debugLogLine args))
        ∧ ∃ a, debugLogLine args = a ++ (" while skipping tls? " ++ "true")) := by
  refine ⟨by rw [h]; rfl, rfl, fun hd hc => ⟨?_, ?_⟩⟩
  · unfold mainRun
    rw [if_neg hc]
    simp [hd, withEvents]
  · refine ⟨"Connecting to " ++ serverURLPointerText ++ " with username "
      ++ args.username ++ " and password " ++ args.password, ?_⟩
    simp [debugLogLine, h, String.append_assoc]

/-- Arguments for a `list node` invocation with both TLS skipping and
debug mode on. -/
def argsSkipTLSDebug : Args :=
  { argsSkipTLSQuiet with debug := true }

theorem skiptls_behavior_witness :
    (clientTransport argsSkipTLSDebug.skipTLSVerify).insecureSkipVerify = true
    ∧ (mainRun argsSkipTLSDebug envAllOk).1.head?
        = some (.logLine (debugLogLine argsSkipTLSDebug))
    ∧ ∃ a, debugLogLine argsSkipTLSDebug = a ++ (" while skipping tls? " ++ "true") := by
  obtain ⟨h1, _, h3⟩ := skiptls_behavior argsSkipTLSDebug envAllOk rfl
  exact ⟨h1, (h3 rfl (by decide)).1, (h3 rfl (by decide)).2⟩

/-- If the value stored at `k` is absent or not a string, the checked
two-valued assertion yields the empty string. -/
theorem lookupString_eq_empty {m : List (String × DynVal)} {k : String}
    (h : ∀ s, lookup m k ≠ some (DynVal.str s)) : lookupString m k = "" := by
  unfold lookupString
  rcases hl : lookup m k with _ | v
  · rfl
  · rcases v with s | n | b | l | o
    · exact absurd hl (h s)
    · rfl
    · rfl
    · rfl
    · rfl

/-- If the value stored at `k` is absent or not a string, the unchecked
assertion panics. -/
theorem lookupStringE_eq_panic {m : List (String × DynVal)} {k : String}
    (h : ∀ s, lookup m k ≠ some (DynVal.str s)) :
    lookupStringE m k = .error (.panicked panicNotString) := by
  unfold lookupStringE
  rcases hl : lookup m k with _ | v
  · rfl
  · rcases v with s | n | b | l | o
    · exact absurd hl (h s)
    · rfl
    · rfl
    · rfl
    · rfl

/-- Claim C9: identity-extraction safety is asymmetric across categories.
For a record (a map) whose identity value is absent or not a string: node
rendering prints an empty header and completes the record normally; VM
rendering prints an empty header and its status block and continues into
the dependent fetches; but storage processing — both at the `"node"` key
of a node record and at the `"storage"` key of a storage record — hits
the unchecked assertion and panics, emitting nothing. -/
theorem identity_extraction_asymmetry (env : ClientEnv) (m : List (String × DynVal))
    (hnode : ∀ s, lookup m "node" ≠ some (DynVal.str s))
    (hname : ∀ s, lookup m "name" ≠ some (DynVal.str s))
    (hstor : ∀ s, lookup m "storage" ≠ some (DynVal.str s)) :
    nodeRecordStep (DynVal.obj m) = (Event.out "" :: nodeAttrLines m, .ok ())
    ∧ (vmStep env (DynVal.obj m)).1 =
        Event.out "" :: Event.out " Status:" :: vmStatusLines m ++ (vmFetches env "").1
    ∧ (vmStep env (DynVal.obj m)).2 = (vmFetches env "").2
    ∧ storageNodeStep env (DynVal.obj m) = ([], .error (.panicked panicNotString))
    ∧ storageRecordStep (DynVal.obj m) = ([], .error (.panicked panicNotString)) := by
  refine ⟨?_, ?_, ?_, ?_, ?_⟩
  · simp [nodeRecordStep, lookupString_eq_empty hnode]
  · simp [vmStep, vmHeaderLines, lookupString_eq_empty hname, withEvents]
  · simp [vmStep, vmHeaderLines, lookupString_eq_empty hname, withEvents]
  · simp [storageNodeStep, lookupStringE_eq_panic hnode]
  · simp [storageRecordStep, lookupStringE_eq_panic hstor]

/-- A record carrying no identity key at all, only a `cpu` attribute. -/
def recNoIdentity : List (String × DynVal) := [("cpu", DynVal.num 4)]

theorem identity_extraction_asymmetry_witness :
    nodeRecordStep (DynVal.obj recNoIdentity)
      = (Event.out "" :: nodeAttrLines recNoIdentity, .ok ())
    ∧ storageNodeStep envAllOk (DynVal.obj recNoIdentity)
      = ([], .error (.panicked panicNotString))
    ∧ storageRecordStep (DynVal.obj recNoIdentity)
      = ([], .error (.panicked panicNotString)) := by
  obtain ⟨h1, _, _, h4, h5⟩ := identity_extraction_asymmetry envAllOk recNoIdentity
    (by intro s hs; simp [recNoIdentity, lookup] at hs)
    (by intro s hs; simp [recNoIdentity, lookup] at hs)
    (by intro s hs; simp [recNoIdentity, lookup] at hs)
  exact ⟨h1, h4, h5⟩

/-- Arguments for a debug-mode `list node` invocation with password
`hunter1`. -/
def argsDebugA : Args :=
  { username := "root", password := "hunter1", otp := "",
    serverURL := "https://localhost:8006/api2/json", skipTLSVerify := false,
    debug := true, realm := "pam", positional := ["list", "node"] }

/-- The same invocation as `argsDebugA` with only the password changed. -/
def argsDebugB : Args :=
  { argsDebugA with password := "hunter2" }

/-- Claim C10: debug mode leaks the credential.  With the debug flag set
(and a command present), the very first event of the run — before any
network call — is a diagnostic-log line that contains the plaintext
password; consequently the two concrete invocations `argsDebugA` and
`argsDebugB`, which differ only in the password, produce different
diagnostic logs. -/
theorem debug_password_leak (args : Args) (env : ClientEnv)
    (hd : args.debug = true) (hc : argN args 0 ≠ "") :
    (mainRun args env).1.head? = some (.logLine (debugLogLine args))
    ∧ (∃ a b, debugLogLine args = a ++ (args.password ++ b))
    ∧ logTexts (mainRun argsDebugA envAllOk).1 ≠ logTexts (mainRun argsDebugB envAllOk).1 := by
  refine ⟨?_, ?_, by decide⟩
  · unfold mainRun
    rw [if_neg hc]
    simp [hd, withEvents]
  · refine ⟨"Connecting to " ++ serverURLPointerText ++ " with username "
      ++ args.username ++ " and password ",
      " while skipping tls? " ++ (if args.skipTLSVerify then "true" else "false"), ?_⟩
    simp [debugLogLine, String.append_assoc]

theorem debug_password_leak_witness :
    (mainRun argsDebugA envAllOk).1.head? = some (.logLine (debugLogLine argsDebugA))
    ∧ (∃ a b, debugLogLine argsDebugA = a ++ (argsDebugA.password ++ b))
    ∧ logTexts (mainRun argsDebugA envAllOk).1 ≠ logTexts (mainRun argsDebugB envAllOk).1 :=
  debug_password_leak argsDebugA envAllOk rfl (by decide)
